import Mathlib

/-!
Shallow embedding of the NLP analytics core (sentiment analyzer, pattern
detector, risk predictor) together with theorems settling the behavioural
claims about it.  Python floats are modelled as exact rationals, Python
strings as Lean strings (a list of characters), Python dictionaries as
Lean structures, and a dictionary in which a key may be absent as a
structure with an Option field.  The external polarity estimator
(a third party library, not part of this repository) is modelled as a
pluggable function argument returning a rational, following the design
note of the specification.
-/

/-! ## String primitives

Python substring membership (`w in t`) and lower casing, implemented over
the character list of a string so that everything reduces by evaluation. -/

/-- Boolean prefix test on character lists. -/
def listPrefix : List Char → List Char → Bool
  | [], _ => true
  | _ :: _, [] => false
  | a :: as, b :: bs => a == b && listPrefix as bs

/-- Boolean substring test on character lists, mirroring Python `w in t`. -/
def listContains (w : List Char) : List Char → Bool
  | [] => w.isEmpty
  | c :: rest => listPrefix w (c :: rest) || listContains w rest

/-- Python `w in t` substring membership on strings. -/
def containsWord (t w : String) : Bool := listContains w.toList t.toList

/-- Python `str.lower`, modelled character by character. -/
def strLower (s : String) : String := String.mk (s.toList.map Char.toLower)

/-- Python `round(x, 2)`; the embedding uses rounding to the nearest integer
of 100 times the value (float rounding details do not affect any claim). -/
def round2 (x : ℚ) : ℚ := (round (x * 100) : ℤ) / 100

/-- Python `round(x, 1)`. -/
def round1 (x : ℚ) : ℚ := (round (x * 10) : ℤ) / 10

/-- Python string formatting with zero decimals, used only inside generated
narrative text. -/
def fmt0 (x : ℚ) : String := toString (round x : ℤ)

/-- Python `max(l)` guarded by `if l else 0`, as used for the overall risk. -/
def pyMax (l : List ℚ) : ℚ := match l with | [] => 0 | x :: xs => xs.foldl max x

/-! ## SentimentAnalyzer (src/sentiment_analyzer.py) -/

/-- Positive keyword set of `SentimentAnalyzer.__init__` (the literal lists
`love` twice; a Python set keeps one copy, so the list below is the set). -/
def positive_words : List String :=
  ["love", "excellent", "amazing", "fantastic", "wonderful", "great", "good",
   "perfect", "best", "awesome", "brilliant", "outstanding", "superb", "trust",
   "confident", "happy", "thrilled", "delighted", "impressed", "satisfied",
   "encanta", "excelente", "perfecto", "increible", "genial", "bueno", "maravilloso",
   "fantastico", "sobresaliente", "impresionado", "satisfecho", "adoro",
   "me encanta", "fantástico", "fabuloso", "me gusta", "bien", "obra"]

/-- Negative keyword set of `SentimentAnalyzer.__init__` (the literal lists
`terrible` and `horrible` twice; the set keeps one copy of each). -/
def negative_words : List String :=
  ["hate", "terrible", "awful", "horrible", "bad", "poor", "worst",
   "disappointed", "frustrated", "angry", "annoyed", "upset", "problem",
   "issue", "bug", "slow", "expensive", "difficult", "fail", "cancel",
   "doubt", "concern", "worried", "unsure", "alternative", "competitor",
   "odio", "malo", "peor", "problema", "bugs",
   "caro", "lento", "difícil", "fracaso", "cancelar", "competencia",
   "competidor", "preocupacion", "inquietud", "alternativa", "dudoso",
   "cambiar", "adios", "adiós", "otros developers", "más barato",
   "renunciar", "renuncia", "renuncie", "partir", "irme", "me voy",
   "dejar", "abandonar", "salir", "terminar", "fin", "otro trabajo",
   "mejor oferta", "buscar", "explorar", "mejores", "mejores roles"]

/-- Number of positive lexicon words occurring as substrings of `t`
(`sum(1 for word in self.positive_words if word in text_lower)`). -/
def positiveCount (t : String) : ℕ :=
  (positive_words.filter (fun w => containsWord t w)).length

/-- Number of negative lexicon words occurring as substrings of `t`. -/
def negativeCount (t : String) : ℕ :=
  (negative_words.filter (fun w => containsWord t w)).length

/-- Clamp to the unit score interval, `min(100, max(0, x))`. -/
def clamp01 (x : ℚ) : ℚ := min 100 (max 0 x)

/-- Embedding of `SentimentAnalyzer._calculate_sentiment`.  The TextBlob
polarity estimate is the pluggable argument `pol` (applied to the raw text,
as in the source); its value is expected in `[-1, 1]`. -/
def calculateSentiment (pol : String → ℚ) (text : String) : ℚ :=
  if text = "" then 50
  else
    let text_lower := strLower text
    let positive_count : ℚ := positiveCount text_lower
    let negative_count : ℚ := negativeCount text_lower
    let keyword_score : ℚ := 50 + positive_count * 10 - negative_count * 10
    let polarity := pol text
    let textblob_score := (polarity + 1) * 50
    let final_score := keyword_score * 0.7 + textblob_score * 0.3
    clamp01 final_score

/-- Embedding of `SentimentAnalyzer._sentiment_state`. -/
def sentimentState (score : ℚ) : String :=
  if score ≥ 80 then "EXTREMELY_POSITIVE"
  else if score ≥ 60 then "POSITIVE"
  else if score ≥ 40 then "NEUTRAL"
  else if score ≥ 20 then "NEGATIVE"
  else "EXTREMELY_NEGATIVE"

/-- Embedding of `SentimentAnalyzer._calculate_trend`. -/
def calculateTrend (sentiments : List ℚ) : String :=
  if sentiments.length < 2 then "insufficient_data"
  else
    let n := sentiments.length
    let first_half := (sentiments.take (n / 2)).sum / ((max 1 (n / 2) : ℕ) : ℚ)
    let second_half := (sentiments.drop (n / 2)).sum / ((max 1 (n - n / 2) : ℕ) : ℚ)
    let diff := second_half - first_half
    if diff > 10 then "IMPROVING"
    else if diff < -10 then "DECLINING"
    else "STABLE"

/-- One timeline entry produced by `SentimentAnalyzer.analyze_evolution`. -/
structure ScoredPoint where
  timestamp : String
  text : String
  sentimentScore : ℚ
  sentimentState : String
  messageIndex : ℕ
deriving Repr, DecidableEq

instance : Inhabited ScoredPoint := ⟨⟨"", "", 0, "", 0⟩⟩

/-- One turning point produced by `SentimentAnalyzer._find_turning_points`. -/
structure TurningPoint where
  index : ℕ
  timestamp : String
  fromState : String
  toState : String
  changeMagnitude : ℚ
  severity : String
deriving Repr, DecidableEq

/-- Severity expression of `_find_turning_points`. -/
def severityOf (change : ℚ) : String :=
  if change > 40 then "CRITICAL" else if change > 30 then "HIGH" else "MEDIUM"

/-- Embedding of `SentimentAnalyzer._find_turning_points`; the loop
`for i in range(1, len(sentiments))` is the filtered range below. -/
def findTurningPoints (sentiments : List ℚ) (timeline : List ScoredPoint) :
    List TurningPoint :=
  (List.range sentiments.length).filterMap fun i =>
    if i = 0 then none
    else
      let change := |sentiments.getD i 0 - sentiments.getD (i - 1) 0|
      if change > 20 then
        some { index := i,
               timestamp := (timeline.getD i default).timestamp,
               fromState := sentimentState (sentiments.getD (i - 1) 0),
               toState := sentimentState (sentiments.getD i 0),
               changeMagnitude := round2 change,
               severity := severityOf change }
      else none

/-- Embedding of `SentimentAnalyzer._generate_interpretation`. -/
def generateInterpretation (sentiments : List ℚ) (trend : String)
    (turning_points : List TurningPoint) : String :=
  if sentiments = [] then "No messages to analyze."
  else
    let current := sentiments.getLastD 0
    let initial := sentiments.headD 0
    let base :=
      if trend = "DECLINING" then
        "Sentiment is DECLINING overall (from " ++ fmt0 initial ++ " to " ++ fmt0 current ++ ")"
      else if trend = "IMPROVING" then
        "Sentiment is IMPROVING overall (from " ++ fmt0 initial ++ " to " ++ fmt0 current ++ ")"
      else
        "Sentiment is STABLE (around " ++ fmt0 current ++ ")"
    let base :=
      if turning_points ≠ [] then
        let critical_points := turning_points.filter (fun p => p.severity = "CRITICAL")
        if critical_points ≠ [] then
          base ++ ". WARNING: " ++ toString critical_points.length ++
            " critical sentiment shift(s) detected."
        else base
      else base
    if current < 30 then base ++ " RISK LEVEL: CRITICAL - Immediate intervention recommended."
    else if current < 50 then base ++ " RISK LEVEL: HIGH - Attention needed soon."
    else if current > 70 then base ++ " Status: POSITIVE - No immediate action needed."
    else base

/-- Text preview of a timeline entry (first 100 characters, ellipsis added
when truncated). -/
def previewText (text : String) : String :=
  if text.length > 100 then text.take 100 ++ "..." else text

/-- One iteration of the timeline loop of `analyze_evolution` for a bare
string message at zero-based position `i` (timestamp synthesized). -/
def mkPoint (pol : String → ℚ) (i : ℕ) (text : String) : ScoredPoint :=
  { timestamp := "Message " ++ toString (i + 1),
    text := previewText text,
    sentimentScore := round2 (calculateSentiment pol text),
    sentimentState := sentimentState (calculateSentiment pol text),
    messageIndex := i + 1 }

/-- Timeline built by the loop of `analyze_evolution`, starting at
zero-based position `i`. -/
def buildTimeline (pol : String → ℚ) : ℕ → List String → List ScoredPoint
  | _, [] => []
  | i, t :: rest => mkPoint pol i t :: buildTimeline pol (i + 1) rest

/-- Result record of `SentimentAnalyzer.analyze_evolution`. -/
structure Trajectory where
  timeline : List ScoredPoint
  currentSentiment : ℚ
  initialSentiment : ℚ
  trend : String
  turningPoints : List TurningPoint
  overallChange : ℚ
  interpretation : String
  messageCount : ℕ
deriving Repr

/-- Embedding of `SentimentAnalyzer._empty_analysis`. -/
def emptyAnalysis : Trajectory :=
  { timeline := [], currentSentiment := 0, initialSentiment := 0,
    trend := "unknown", turningPoints := [], overallChange := 0,
    interpretation := "No data provided", messageCount := 0 }

/-- Embedding of `SentimentAnalyzer.analyze_evolution` for bare string
messages (the wire form of the external interface). -/
def analyzeEvolution (pol : String → ℚ) (messages : List String) : Trajectory :=
  if messages = [] then emptyAnalysis
  else
    let timeline := buildTimeline pol 0 messages
    let sentiments := messages.map (calculateSentiment pol)
    let trend := calculateTrend sentiments
    let turning_points := findTurningPoints sentiments timeline
    let overall_change :=
      match sentiments.getLast?, sentiments.head? with
      | some l, some h => l - h
      | _, _ => 0
    { timeline := timeline,
      currentSentiment := match sentiments.getLast? with
        | some x => round2 x
        | none => 0,
      initialSentiment := match sentiments.head? with
        | some x => round2 x
        | none => 0,
      trend := trend,
      turningPoints := turning_points,
      overallChange := round2 overall_change,
      interpretation := generateInterpretation sentiments trend turning_points,
      messageCount := messages.length }

/-! ## PatternDetector (src/pattern_detector.py) -/

/-- Comparison keyword list of `PatternDetector.__init__`. -/
def comparison_keywords : List String :=
  ["competitor", "alternative", "better", "cheaper", "faster",
   "other", "someone else", "another", "different", "switch",
   "change", "similar", "compare", "versus", "instead"]

/-- Frustration keyword list of `PatternDetector.__init__`. -/
def frustration_keywords : List String :=
  ["slow", "late", "delayed", "wait", "frustrated", "annoyed",
   "angry", "upset", "disappointed", "problem", "issue", "bug",
   "broken", "not working", "fail", "error", "impossible"]

/-- Disengagement keyword list of `PatternDetector.__init__`. -/
def disengagement_keywords : List String :=
  ["cancel", "stop", "end", "quit", "leave", "exit", "goodbye",
   "farewell", "thanks anyway", "no thanks", "decline", "refuse",
   "not interested", "moving on", "consider", "think about",
   "evaluate", "looking at"]

/-- Price keyword list of `PatternDetector.__init__` (the source list
literally repeats `expensive`; the scan returns the first hit, so the
duplicate is kept for faithfulness and is harmless). -/
def price_keywords : List String :=
  ["expensive", "cost", "price", "cheap", "expensive", "fee",
   "charge", "budget", "discount", "negotiate", "lower"]

/-- One detected signal, as returned by the four check helpers when found. -/
structure SignalHit where
  type : String
  text : String
  description : String
deriving Repr, DecidableEq

/-- Embedding of `PatternDetector._check_comparisons` (first keyword found
in list order, or nothing). -/
def checkComparisons (text : String) : Option SignalHit :=
  (comparison_keywords.find? (fun w => containsWord text w)).map fun k =>
    ⟨"COMPETITOR_COMPARISON", k, "Comparing with alternatives or competitors"⟩

/-- Embedding of `PatternDetector._check_frustration`. -/
def checkFrustration (text : String) : Option SignalHit :=
  (frustration_keywords.find? (fun w => containsWord text w)).map fun k =>
    ⟨"FRUSTRATION", k, "Expressing dissatisfaction or frustration"⟩

/-- Embedding of `PatternDetector._check_disengagement`. -/
def checkDisengagement (text : String) : Option SignalHit :=
  (disengagement_keywords.find? (fun w => containsWord text w)).map fun k =>
    ⟨"DISENGAGEMENT", k, "Showing intent to leave or end relationship"⟩

/-- Embedding of `PatternDetector._check_price`. -/
def checkPrice (text : String) : Option SignalHit :=
  (price_keywords.find? (fun w => containsWord text w)).map fun k =>
    ⟨"PRICE_CONCERN", k, "Mentioning cost or pricing concerns"⟩

/-- Per message signal group appended to the `signals` list. -/
structure MessageSignals where
  messageIndex : ℕ
  timestamp : String
  signals : List SignalHit
  riskScore : ℚ
deriving Repr, DecidableEq

/-- Mutable loop state of `PatternDetector.detect_signals`. -/
structure ScanState where
  signals : List MessageSignals
  riskScores : List ℚ
  breakingPoint : Option ℕ
  keyPhrases : List String
deriving Repr

/-- Body of the per message loop of `detect_signals` for the bare string
message `msg` at zero-based position `i`. -/
def scanMessage (i : ℕ) (msg : String) (st : ScanState) : ScanState :=
  let text := strLower msg
  let ts := "Message " ++ toString (i + 1)
  let cs := checkComparisons text
  let fs := checkFrustration text
  let ds := checkDisengagement text
  let ps := checkPrice text
  let msgSignals1 : List SignalHit := cs.toList
  let msgRisk1 : ℚ := if cs.isSome then 25 else 0
  let kp1 := st.keyPhrases ++ (cs.map SignalHit.text).toList
  let bp1 := if cs.isSome && st.breakingPoint.isNone then some (i + 1) else st.breakingPoint
  let msgSignals2 := msgSignals1 ++ fs.toList
  let msgRisk2 := msgRisk1 + (if fs.isSome then 30 else 0)
  let kp2 := kp1 ++ (fs.map SignalHit.text).toList
  let bp2 := if fs.isSome && bp1.isNone && decide (msgRisk2 > 30) then some (i + 1) else bp1
  let msgSignals3 := msgSignals2 ++ ds.toList
  let msgRisk3 := msgRisk2 + (if ds.isSome then 35 else 0)
  let kp3 := kp2 ++ (ds.map SignalHit.text).toList
  let bp3 := if ds.isSome && bp2.isNone then some (i + 1) else bp2
  let msgSignals4 := msgSignals3 ++ ps.toList
  let msgRisk4 := msgRisk3 + (if ps.isSome then 20 else 0)
  let kp4 := kp3 ++ (ps.map SignalHit.text).toList
  if msgSignals4 ≠ [] then
    { signals := st.signals ++ [⟨i + 1, ts, msgSignals4, min 100 msgRisk4⟩],
      riskScores := st.riskScores ++ [msgRisk4],
      breakingPoint := bp3,
      keyPhrases := kp4 }
  else
    { st with breakingPoint := bp3, keyPhrases := kp4 }

/-- Whole message loop of `detect_signals`, left to right. -/
def scanMessages : ℕ → List String → ScanState → ScanState
  | _, [], st => st
  | i, m :: rest, st => scanMessages (i + 1) rest (scanMessage i m st)

/-- Embedding of `PatternDetector._assess_risk_level`. -/
def assessRiskLevel (risk_score : ℚ) : String :=
  if risk_score ≥ 70 then "CRITICAL"
  else if risk_score ≥ 50 then "HIGH"
  else if risk_score ≥ 30 then "MEDIUM"
  else "LOW"

/-- Embedding of `PatternDetector._generate_recommendations`.  The two
signal-type clauses at the end of the source read `s.get("type")` from the
per message group dictionaries, which never carry a `type` key, so those
conditions are always false; they are embedded as such. -/
def generateRecommendations (context : String) (risk_level : String)
    (signals : List MessageSignals) (breaking_point : Option ℕ) : List String :=
  let recs1 : List String :=
    if risk_level = "CRITICAL" then
      ["⚠️ URGENT: Immediate intervention required"] ++
        (match breaking_point with
         | some bp => if bp ≠ 0 then ["Breaking point detected at message " ++ toString bp] else []
         | none => [])
    else []
  let recs2 := recs1 ++
    (if context = "customer" then
       if risk_level = "CRITICAL" ∨ risk_level = "HIGH" then
         ["Contact customer immediately to address concerns",
          "Prepare retention offer (discount/upgrade)",
          "Escalate to account manager"]
       else []
     else if context = "employee" then
       if risk_level = "CRITICAL" ∨ risk_level = "HIGH" then
         ["Schedule 1-on-1 with HR or manager",
          "Identify root cause of dissatisfaction",
          "Prepare retention plan"]
       else []
     else if context = "investor" then
       if risk_level = "CRITICAL" ∨ risk_level = "HIGH" then
         ["Prepare detailed response addressing concerns",
          "Schedule follow-up meeting"]
       else []
     else [])
  let recs3 := recs2 ++
    (if signals.any (fun _ => false) then
       ["Counter competitive threats with unique value proposition"] else [])
  let recs4 := recs3 ++
    (if signals.any (fun _ => false) then
       ["Review pricing strategy and alternative plans"] else [])
  recs4.take 5

/-- Result record of `PatternDetector.detect_signals`.  The source returns a
dictionary; the canonical empty result omits the `total_risk_score` key
entirely, which is modelled by an Option field set to `none` there. -/
structure RiskAssessment where
  signals : List MessageSignals
  riskLevel : String
  confidence : ℚ
  breakingPoint : Option ℕ
  keyPhrases : List String
  recommendations : List String
  totalRiskScore : Option ℚ
deriving Repr

/-- Embedding of `PatternDetector._empty_signals`. -/
def emptySignals : RiskAssessment :=
  { signals := [], riskLevel := "UNKNOWN", confidence := 0,
    breakingPoint := none, keyPhrases := [], recommendations := [],
    totalRiskScore := none }

/-- Embedding of `PatternDetector.detect_signals` for bare string messages.
Python builds `list(set(key_phrases))[:5]` whose order is unspecified; the
embedding keeps deduplicated insertion data (no claim depends on it). -/
def detectSignals (messages : List String) (context : String) : RiskAssessment :=
  if messages = [] then emptySignals
  else
    let st := scanMessages 0 messages ⟨[], [], none, []⟩
    let overall_risk := pyMax st.riskScores
    let risk_level := assessRiskLevel overall_risk
    { signals := st.signals,
      riskLevel := risk_level,
      confidence := min 100 ((st.signals.length : ℚ) * 15),
      breakingPoint := st.breakingPoint,
      keyPhrases := st.keyPhrases.dedup.take 5,
      recommendations := generateRecommendations context risk_level st.signals st.breakingPoint,
      totalRiskScore := some (min 100 overall_risk) }

/-! ## RiskPredictor (src/risk_predictor.py) -/

/-- Churn indicator list of `RiskPredictor.__init__`. -/
def churn_indicators : List String :=
  ["cancel", "leave", "stop", "switch", "competitor", "alternative",
   "expensive", "slow", "disappointed", "problem", "issue"]

/-- Resolution indicator list of `RiskPredictor.__init__`. -/
def resolution_indicators : List String :=
  ["understand", "sorry", "appreciate", "help", "support", "solution",
   "fix", "improve", "better", "thanks"]

/-- Embedding of `RiskPredictor._score_churn_risk`
(15 points per matching indicator, capped at 100). -/
def scoreChurnRisk (text : String) : ℚ :=
  min 100 (((churn_indicators.filter (fun w => containsWord text w)).length : ℚ) * 15)

/-- Embedding of `RiskPredictor._score_resolution_likelihood`. -/
def scoreResolutionLikelihood (text : String) : ℚ :=
  min 100 (((resolution_indicators.filter (fun w => containsWord text w)).length : ℚ) * 15)

/-- Embedding of `RiskPredictor._predict_primary_action` (the `context`
parameter is accepted and ignored, as in the source). -/
def predictPrimaryAction (current_sentiment : ℚ) (trend : String)
    (churn_score resolution_score : ℚ) (context : String) : String :=
  if churn_score > 50 ∧ current_sentiment < 40 then "LIKELY_CHURN"
  else if resolution_score > 50 ∧ trend = "IMPROVING" then "LIKELY_RESOLUTION"
  else if current_sentiment > 50 ∧ trend ≠ "DECLINING" then "LIKELY_STAY"
  else if current_sentiment < 30 ∧ trend = "DECLINING" then "ESCALATION_NEEDED"
  else "MONITOR_CLOSELY"

/-- Embedding of `RiskPredictor._calculate_confidence`. -/
def calculateConfidence (sentiments : List ℚ)
    (churn_score resolution_score : ℚ) : ℚ :=
  let base1 : ℚ := 50
  let base2 :=
    if sentiments.length ≥ 5 then base1 + 20
    else if sentiments.length ≥ 3 then base1 + 10
    else base1
  let base3 :=
    if sentiments.length ≥ 3 then
      let trend_strength :=
        |(sentiments.drop (sentiments.length - 2)).sum - (sentiments.take 2).sum| /
          (sentiments.length : ℚ)
      base2 + min 20 trend_strength
    else base2
  let base4 := if max churn_score resolution_score > 60 then base3 + 15 else base3
  min 100 base4

/-- Embedding of `RiskPredictor._predict_timeline`. -/
def predictTimeline (trend : String) (current_sentiment churn_score : ℚ)
    (context : String) : String :=
  if current_sentiment < 20 ∧ churn_score > 80 then "IMMEDIATE (0-24 hours)"
  else if trend = "DECLINING" ∧ churn_score > 60 then "VERY_SOON (1-3 days)"
  else if churn_score > 50 ∨ current_sentiment < 40 then "SOON (3-7 days)"
  else if current_sentiment < 50 then "MEDIUM_TERM (1-4 weeks)"
  else "EXTENDED (1-3 months)"

/-- Embedding of `RiskPredictor._assess_urgency`. -/
def assessUrgency (current_sentiment churn_score : ℚ) (action : String) : String :=
  if current_sentiment < 20 ∨ churn_score > 80 ∨ action = "LIKELY_CHURN" then "CRITICAL"
  else if current_sentiment < 40 ∨ churn_score > 60 ∨ action = "ESCALATION_NEEDED" then "HIGH"
  else if current_sentiment < 50 ∨ churn_score > 40 then "MEDIUM"
  else "LOW"

/-- Embedding of `RiskPredictor._generate_interventions` (the source
strings carry mojibake emoji prefixes, reproduced as written). -/
def generateInterventions (action context urgency : String)
    (sentiment : ℚ) : List String :=
  let base : List String :=
    if action = "LIKELY_CHURN" then
      ["ðŸš¨ Immediate outreach required",
       "Prepare retention offer",
       "Escalate to senior management"]
    else if action = "ESCALATION_NEEDED" then
      ["âš ï¸ Schedule urgent meeting",
       "Identify root cause",
       "Prepare solution options"]
    else if action = "LIKELY_RESOLUTION" then
      ["âœ… Prepare resolution proposal",
       "Schedule follow-up"]
    else []
  let withContext := base ++
    (if context = "customer" then
       if urgency = "CRITICAL" ∨ urgency = "HIGH" then
         ["Offer priority support/upgrade", "Consider special pricing"]
       else []
     else if context = "employee" then
       if urgency = "CRITICAL" ∨ urgency = "HIGH" then
         ["Schedule HR meeting", "Assess job satisfaction"]
       else []
     else [])
  withContext.take 4

/-- Embedding of `RiskPredictor._calculate_intervention_success`. -/
def calculateInterventionSuccess (context urgency action : String) : ℚ :=
  let base : ℚ := 60
  let urgencyAdj : ℚ :=
    if urgency = "CRITICAL" then -20
    else if urgency = "HIGH" then -10
    else if urgency = "MEDIUM" then 0
    else if urgency = "LOW" then 10
    else 0
  let actionAdj : ℚ :=
    if action = "LIKELY_RESOLUTION" then 20
    else if action = "LIKELY_STAY" then 15
    else if action = "MONITOR_CLOSELY" then 5
    else if action = "ESCALATION_NEEDED" then -5
    else if action = "LIKELY_CHURN" then -15
    else 0
  let withAdj := base + urgencyAdj + actionAdj +
    (if context = "customer" ∨ context = "employee" then 10 else 0)
  max 20 (min 95 withAdj)

/-- Embedding of `RiskPredictor._generate_explanation`. -/
def generateExplanation (action : String) (sentiment : ℚ) (trend : String)
    (churn_score : ℚ) : String :=
  let explanation := "Based on current sentiment (" ++ fmt0 sentiment ++
    "/100) and " ++ strLower trend ++ " trend, "
  if action = "LIKELY_CHURN" then
    explanation ++ "the subject shows strong churn indicators (" ++
      fmt0 churn_score ++ "/100). " ++
      "Immediate action strongly recommended to prevent departure."
  else if action = "LIKELY_RESOLUTION" then
    explanation ++ "the situation appears to be resolving. " ++
      "Continue supportive approach and follow up soon."
  else if action = "LIKELY_STAY" then
    explanation ++ "the relationship appears stable. " ++
      "Maintain current level of service and monitor for changes."
  else if action = "ESCALATION_NEEDED" then
    explanation ++ "the situation has deteriorated significantly. " ++
      "Escalation and intervention are necessary."
  else
    explanation ++ "signals are mixed. Continue monitoring closely."

/-- Embedded trajectory summary of a prediction result. -/
structure TrajectorySummary where
  initial : ℚ
  current : ℚ
  trend : String
  overallChange : ℚ
deriving Repr

/-- Result record of `RiskPredictor.predict_action`.  The canonical empty
prediction omits the `sentiment_trajectory` key, modelled by `none`. -/
structure ActionPrediction where
  action : String
  confidence : ℚ
  timeline : String
  urgency : String
  interventions : List String
  successRate : ℚ
  explanation : String
  sentimentTrajectory : Option TrajectorySummary
deriving Repr

/-- Embedding of `RiskPredictor._empty_prediction`. -/
def emptyPrediction : ActionPrediction :=
  { action := "UNKNOWN", confidence := 0, timeline := "UNKNOWN",
    urgency := "UNKNOWN", interventions := [], successRate := 0,
    explanation := "No data provided", sentimentTrajectory := none }

/-- Concatenated, lower cased text of the last three messages
(`messages[-3:]` equals this drop for every length). -/
def finalTextOf (messages : List String) : String :=
  strLower (String.intercalate " " (messages.drop (messages.length - 3)))

/-- Embedding of `RiskPredictor.predict_action` for bare string messages. -/
def predictAction (pol : String → ℚ) (messages : List String)
    (context : String) : ActionPrediction :=
  if messages = [] then emptyPrediction
  else
    let sentiment_data := analyzeEvolution pol messages
    let sentiments := sentiment_data.timeline.map ScoredPoint.sentimentScore
    let current_sentiment := sentiment_data.currentSentiment
    let trend := sentiment_data.trend
    let final_text := finalTextOf messages
    let churn_score := scoreChurnRisk final_text
    let resolution_score := scoreResolutionLikelihood final_text
    let action := predictPrimaryAction current_sentiment trend churn_score resolution_score context
    let confidence := calculateConfidence sentiments churn_score resolution_score
    let timeline := predictTimeline trend current_sentiment churn_score context
    let urgency := assessUrgency current_sentiment churn_score action
    let interventions := generateInterventions action context urgency current_sentiment
    let success_rate := calculateInterventionSuccess context urgency action
    let explanation := generateExplanation action current_sentiment trend churn_score
    { action := action,
      confidence := round1 confidence,
      timeline := timeline,
      urgency := urgency,
      interventions := interventions,
      successRate := round1 success_rate,
      explanation := explanation,
      sentimentTrajectory := some
        { initial := sentiment_data.initialSentiment,
          current := current_sentiment,
          trend := trend,
          overallChange := sentiment_data.overallChange } }

/-! ## Helper lemmas -/

lemma clamp01_nonneg (x : ℚ) : 0 ≤ clamp01 x :=
  le_min (by norm_num) (le_max_left 0 x)

lemma clamp01_le_100 (x : ℚ) : clamp01 x ≤ 100 := min_le_left _ _

lemma clamp01_mono {x y : ℚ} (h : x ≤ y) : clamp01 x ≤ clamp01 y :=
  min_le_min le_rfl (max_le_max le_rfl h)

/-! ## Claims -/

/-- C1: for every input text the Lexicon Scorer returns a value in
`[0, 100]` equal to the clamp of
`0.7 * (50 + 10 * positive_count - 10 * negative_count)
 + 0.3 * ((polarity + 1) * 50)`, the counts being the numbers of lexicon
words occurring as substrings of the lower cased text and the polarity
being the pluggable estimate in `[-1, 1]`; empty text returns exactly 50
and the function is total. -/
theorem C1_lexicon_scorer_formula (pol : String → ℚ) (text : String)
    (hlo : -1 ≤ pol text) (hhi : pol text ≤ 1) :
    calculateSentiment pol text =
      (if text = "" then 50
       else clamp01 (0.7 * (50 + 10 * (positiveCount (strLower text) : ℚ)
             - 10 * (negativeCount (strLower text) : ℚ))
           + 0.3 * ((pol text + 1) * 50)))
    ∧ 0 ≤ calculateSentiment pol text
    ∧ calculateSentiment pol text ≤ 100
    ∧ (text = "" → calculateSentiment pol text = 50) := by
  by_cases h : text = ""
  · refine ⟨by simp [calculateSentiment, h], by simp [calculateSentiment, h],
      by simp [calculateSentiment, h]; norm_num, fun _ => by simp [calculateSentiment, h]⟩
  · have e : calculateSentiment pol text =
        clamp01 ((50 + (positiveCount (strLower text) : ℚ) * 10
            - (negativeCount (strLower text) : ℚ) * 10) * 0.7
          + ((pol text + 1) * 50) * 0.3) := by
      simp [calculateSentiment, h]
    refine ⟨?_, ?_, ?_, fun he => absurd he h⟩
    · rw [e, if_neg h]
      congr 1
      ring
    · rw [e]; exact clamp01_nonneg _
    · rw [e]; exact clamp01_le_100 _

/-- Witness for C1 at a concrete polarity function and text. -/
theorem C1_lexicon_scorer_formula_witness :
    0 ≤ calculateSentiment (fun _ => 0) "great" ∧
    calculateSentiment (fun _ => 0) "great" ≤ 100 :=
  ⟨(C1_lexicon_scorer_formula (fun _ => 0) "great" (by norm_num) (by norm_num)).2.1,
   (C1_lexicon_scorer_formula (fun _ => 0) "great" (by norm_num) (by norm_num)).2.2.1⟩

/-- C7: each of the three operations maps the empty message list to its
canonical empty or unknown result (empty timeline with zero scores, risk
level UNKNOWN with confidence 0, action UNKNOWN); the functions are total,
so no exception is possible. -/
theorem C7_empty_inputs (pol : String → ℚ) (ctx : String) :
    analyzeEvolution pol [] = emptyAnalysis ∧
    emptyAnalysis.timeline = [] ∧
    emptyAnalysis.currentSentiment = 0 ∧
    emptyAnalysis.initialSentiment = 0 ∧
    detectSignals [] ctx = emptySignals ∧
    emptySignals.riskLevel = "UNKNOWN" ∧
    emptySignals.confidence = 0 ∧
    predictAction pol [] ctx = emptyPrediction ∧
    emptyPrediction.action = "UNKNOWN" :=
  ⟨rfl, rfl, rfl, rfl, rfl, rfl, rfl, rfl, rfl⟩

/-! ## Signal scan characterization -/

/-- Truth of at least one of the four signal checks for a raw message. -/
def hasSignal (m : String) : Bool :=
  (checkComparisons (strLower m)).isSome || (checkFrustration (strLower m)).isSome ||
  (checkDisengagement (strLower m)).isSome || (checkPrice (strLower m)).isSome

/-- Uncapped risk contribution of one raw message, as accumulated by the
scan loop. -/
def rawRisk (m : String) : ℚ :=
  (if (checkComparisons (strLower m)).isSome then 25 else 0)
  + (if (checkFrustration (strLower m)).isSome then 30 else 0)
  + (if (checkDisengagement (strLower m)).isSome then 35 else 0)
  + (if (checkPrice (strLower m)).isSome then 20 else 0)

/-- Predicate under which a message can set the breaking point. -/
def qualifiesBp (m : String) : Bool :=
  (checkComparisons (strLower m)).isSome || (checkDisengagement (strLower m)).isSome

/-- Zero based position of the first list entry satisfying `p`. -/
def findFirstIdx (p : String → Bool) : List String → Option ℕ
  | [] => none
  | x :: xs => if p x then some 0 else (findFirstIdx p xs).map (· + 1)

lemma scanMessage_riskScores (i : ℕ) (m : String) (st : ScanState) :
    (scanMessage i m st).riskScores =
      st.riskScores ++ (if hasSignal m then [rawRisk m] else []) := by
  unfold scanMessage hasSignal rawRisk
  cases hc : checkComparisons (strLower m) <;>
  cases hf : checkFrustration (strLower m) <;>
  cases hd : checkDisengagement (strLower m) <;>
  cases hp : checkPrice (strLower m) <;>
  simp [hc, hf, hd, hp]

lemma scanMessage_breakingPoint (i : ℕ) (m : String) (st : ScanState) :
    (scanMessage i m st).breakingPoint =
      (if st.breakingPoint.isNone && qualifiesBp m then some (i + 1)
       else st.breakingPoint) := by
  unfold scanMessage qualifiesBp
  have h30 : ¬((0 : ℚ) + 30 > 30) := by norm_num
  cases hb : st.breakingPoint <;>
  cases hc : checkComparisons (strLower m) <;>
  cases hf : checkFrustration (strLower m) <;>
  cases hd : checkDisengagement (strLower m) <;>
  cases hp : checkPrice (strLower m) <;>
  simp [hb, hc, hf, hd, hp, h30]

lemma scanMessages_riskScores : ∀ (msgs : List String) (i : ℕ) (st : ScanState),
    (scanMessages i msgs st).riskScores =
      st.riskScores ++ (msgs.filter hasSignal).map rawRisk
  | [], _, st => by simp [scanMessages]
  | m :: rest, i, st => by
    rw [scanMessages, scanMessages_riskScores rest (i + 1) (scanMessage i m st),
      scanMessage_riskScores]
    by_cases h : hasSignal m <;> simp [h, List.filter_cons]

lemma scanMessages_breakingPoint : ∀ (msgs : List String) (i : ℕ) (st : ScanState),
    (scanMessages i msgs st).breakingPoint =
      (if st.breakingPoint.isSome then st.breakingPoint
       else (findFirstIdx qualifiesBp msgs).map (fun j => j + (i + 1)))
  | [], _, st => by cases h : st.breakingPoint <;> simp [scanMessages, findFirstIdx, h]
  | m :: rest, i, st => by
    rw [scanMessages, scanMessages_breakingPoint rest (i + 1) (scanMessage i m st),
      scanMessage_breakingPoint]
    cases hb : st.breakingPoint
    · by_cases hq : qualifiesBp m
      · simp [hq, findFirstIdx]
      · simp only [hq, findFirstIdx, Option.isNone_none, Bool.true_and,
          Bool.and_false, if_neg, if_false]
        simp only [Option.isSome_none, Bool.false_eq_true, if_false, if_neg hq]
        cases findFirstIdx qualifiesBp rest <;> simp <;> omega
    · simp [hb]

lemma detectSignals_breakingPoint (messages : List String) (ctx : String) :
    (detectSignals messages ctx).breakingPoint =
      (findFirstIdx qualifiesBp messages).map (fun j => j + 1) := by
  by_cases h : messages = []
  · subst h; simp [detectSignals, emptySignals, findFirstIdx]
  · simp only [detectSignals, if_neg h]
    rw [scanMessages_breakingPoint]
    simp

lemma findFirstIdx_isSome (p : String → Bool) : ∀ l : List String,
    (findFirstIdx p l).isSome = true ↔ ∃ m ∈ l, p m = true
  | [] => by simp [findFirstIdx]
  | x :: xs => by
    rw [findFirstIdx]
    by_cases h : p x
    · simp [h]
    · have ih := findFirstIdx_isSome p xs
      cases hfx : findFirstIdx p xs <;> rw [hfx] at ih <;> simp [h, hfx, ← ih]

lemma rawRisk_nonneg (m : String) : 0 ≤ rawRisk m := by
  unfold rawRisk; split_ifs <;> norm_num

lemma rawRisk_of_not_hasSignal {m : String} (h : hasSignal m = false) :
    rawRisk m = 0 := by
  simp only [hasSignal, Bool.or_eq_false_iff] at h
  simp [rawRisk, h.1.1.1, h.1.1.2, h.1.2, h.2]

lemma foldl_max_shift : ∀ (l : List ℚ) (a b : ℚ),
    l.foldl max (max a b) = max a (l.foldl max b)
  | [], _, _ => by simp
  | c :: l, a, b => by
    show l.foldl max (max (max a b) c) = max a ((c :: l).foldl max b)
    rw [max_assoc, foldl_max_shift l a (max b c)]
    rfl

lemma pyMax_cons (x : ℚ) (l : List ℚ) (hx : 0 ≤ x) :
    pyMax (x :: l) = max x (pyMax l) := by
  cases l with
  | nil => simp [pyMax, max_eq_left hx]
  | cons y ys =>
    show (y :: ys).foldl max x = max x (ys.foldl max y)
    show ys.foldl max (max x y) = max x (ys.foldl max y)
    exact foldl_max_shift ys x y

lemma foldr_max_nonneg (l : List ℚ) : 0 ≤ l.foldr max 0 := by
  induction l with
  | nil => simp
  | cons x xs ih => exact le_trans ih (le_max_right x _)

lemma foldr_max_le (l : List ℚ) (c : ℚ) (hc : 0 ≤ c)
    (h : ∀ x ∈ l, x ≤ c) : l.foldr max 0 ≤ c := by
  induction l with
  | nil => simpa using hc
  | cons x xs ih =>
    exact max_le (h x (List.mem_cons_self x xs))
      (ih fun y hy => h y (List.mem_cons_of_mem x hy))

/-- Spec side per message risk contribution, written after the claim
wording: the fixed weights of the triggered signal types, summed and
capped at 100. -/
def contributionC2 (m : String) : ℚ :=
  min 100 ((if (checkComparisons (strLower m)).isSome then 25 else 0)
    + (if (checkFrustration (strLower m)).isSome then 30 else 0)
    + (if (checkDisengagement (strLower m)).isSome then 35 else 0)
    + (if (checkPrice (strLower m)).isSome then 20 else 0))

/-- Spec side overall risk, written after the claim wording: the maximum
of the per message contributions (zero for an empty conversation). -/
def overallRiskC2 (messages : List String) : ℚ :=
  (messages.map contributionC2).foldr max 0

lemma overall_eq : ∀ messages : List String,
    min 100 (pyMax ((messages.filter hasSignal).map rawRisk)) =
      overallRiskC2 messages
  | [] => by simp [pyMax, overallRiskC2]
  | m :: rest => by
    have hcontrib : contributionC2 m = min 100 (rawRisk m) := rfl
    by_cases h : hasSignal m
    · rw [List.filter_cons_of_pos h, List.map_cons,
        pyMax_cons _ _ (rawRisk_nonneg m), min_max_distrib_left,
        overall_eq rest]
      simp [overallRiskC2, hcontrib]
    · rw [List.filter_cons_of_neg (by simp [h]), overall_eq rest]
      have : contributionC2 m = 0 := by
        rw [hcontrib, rawRisk_of_not_hasSignal (by simpa using h)]
        norm_num
      simp only [overallRiskC2, List.map_cons, List.foldr, this]
      exact (max_eq_right (foldr_max_nonneg _)).symm

lemma detectSignals_totalRiskScore (messages : List String) (ctx : String)
    (h : messages ≠ []) :
    (detectSignals messages ctx).totalRiskScore =
      some (overallRiskC2 messages) := by
  simp only [detectSignals, if_neg h]
  rw [scanMessages_riskScores]
  simp only [List.nil_append]
  rw [overall_eq]

lemma detectSignals_riskLevel (messages : List String) (ctx : String)
    (h : messages ≠ []) :
    (detectSignals messages ctx).riskLevel =
      assessRiskLevel (pyMax ((messages.filter hasSignal).map rawRisk)) := by
  simp only [detectSignals, if_neg h]
  rw [scanMessages_riskScores]
  simp only [List.nil_append]

lemma assessRiskLevel_bands (u : ℚ) :
    (assessRiskLevel u = "CRITICAL" ↔ 70 ≤ u) ∧
    (assessRiskLevel u = "HIGH" ↔ 50 ≤ u ∧ u < 70) ∧
    (assessRiskLevel u = "MEDIUM" ↔ 30 ≤ u ∧ u < 50) ∧
    (assessRiskLevel u = "LOW" ↔ u < 30) := by
  unfold assessRiskLevel
  split_ifs with h1 h2 h3
  · exact ⟨⟨fun _ => h1, fun _ => rfl⟩,
      ⟨fun hc => absurd hc (by decide), fun hb => False.elim (by linarith [hb.2])⟩,
      ⟨fun hc => absurd hc (by decide), fun hb => False.elim (by linarith [hb.2])⟩,
      ⟨fun hc => absurd hc (by decide), fun hb => False.elim (by linarith)⟩⟩
  · exact ⟨⟨fun hc => absurd hc (by decide), fun hb => absurd hb h1⟩,
      ⟨fun _ => ⟨h2, not_le.mp h1⟩, fun _ => rfl⟩,
      ⟨fun hc => absurd hc (by decide), fun hb => False.elim (by linarith [hb.2])⟩,
      ⟨fun hc => absurd hc (by decide), fun hb => False.elim (by linarith)⟩⟩
  · exact ⟨⟨fun hc => absurd hc (by decide), fun hb => absurd hb h1⟩,
      ⟨fun hc => absurd hc (by decide), fun hb => absurd hb.1 h2⟩,
      ⟨fun _ => ⟨h3, not_le.mp h2⟩, fun _ => rfl⟩,
      ⟨fun hc => absurd hc (by decide), fun hb => False.elim (by linarith)⟩⟩
  · exact ⟨⟨fun hc => absurd hc (by decide), fun hb => absurd hb h1⟩,
      ⟨fun hc => absurd hc (by decide), fun hb => absurd hb.1 h2⟩,
      ⟨fun hc => absurd hc (by decide), fun hb => absurd hb.1 h3⟩,
      ⟨fun _ => not_le.mp h3, fun _ => rfl⟩⟩

lemma min100_le_iff (a u : ℚ) (ha : a ≤ 100) : a ≤ min 100 u ↔ a ≤ u := by
  rw [le_min_iff]
  exact ⟨fun h => h.2, fun h => ⟨ha, h⟩⟩

lemma min100_lt_iff (a u : ℚ) (ha : ¬(100 < a)) : min 100 u < a ↔ u < a := by
  rw [min_lt_iff]
  exact ⟨fun h => h.elim (fun h100 => absurd h100 ha) id, fun h => Or.inr h⟩

/-- C2: for every non empty message list the total risk score equals the
maximum of the per message contributions (weights 25/30/35/20, summed and
capped at 100 per message), the risk level bands are CRITICAL at 70 and
above, HIGH in `[50, 70)`, MEDIUM in `[30, 50)` and LOW below 30, and the
single message `cancel competitor` fires disengagement and comparison for
a contribution of 60 and level HIGH. -/
theorem C2_overall_risk_is_max (messages : List String) (ctx : String)
    (h : messages ≠ []) :
    (detectSignals messages ctx).totalRiskScore = some (overallRiskC2 messages) ∧
    ((detectSignals messages ctx).riskLevel = "CRITICAL" ↔
      70 ≤ overallRiskC2 messages) ∧
    ((detectSignals messages ctx).riskLevel = "HIGH" ↔
      50 ≤ overallRiskC2 messages ∧ overallRiskC2 messages < 70) ∧
    ((detectSignals messages ctx).riskLevel = "MEDIUM" ↔
      30 ≤ overallRiskC2 messages ∧ overallRiskC2 messages < 50) ∧
    ((detectSignals messages ctx).riskLevel = "LOW" ↔
      overallRiskC2 messages < 30) ∧
    contributionC2 "cancel competitor" = 60 ∧
    (detectSignals ["cancel competitor"] "general").riskLevel = "HIGH" := by
  have h1 : (checkComparisons (strLower "cancel competitor")).isSome = true := by decide
  have h2 : (checkFrustration (strLower "cancel competitor")).isSome = false := by decide
  have h3 : (checkDisengagement (strLower "cancel competitor")).isSome = true := by decide
  have h4 : (checkPrice (strLower "cancel competitor")).isSome = false := by decide
  have hc60 : contributionC2 "cancel competitor" = 60 := by
    norm_num [contributionC2, h1, h2, h3, h4]
  have hraw : rawRisk "cancel competitor" = 60 := by
    norm_num [rawRisk, h1, h2, h3, h4]
  have hrl : (detectSignals ["cancel competitor"] "general").riskLevel = "HIGH" := by
    rw [detectSignals_riskLevel _ _ (List.cons_ne_nil _ _)]
    have hfil : ((["cancel competitor"] : List String).filter hasSignal).map rawRisk
        = [rawRisk "cancel competitor"] := by
      have hhs : hasSignal "cancel competitor" = true := by decide
      simp [hhs]
    rw [hfil, show pyMax [rawRisk "cancel competitor"] = rawRisk "cancel competitor" from rfl,
      hraw]
    norm_num [assessRiskLevel]
  have hu := detectSignals_riskLevel messages ctx h
  have hover : overallRiskC2 messages =
      min 100 (pyMax ((messages.filter hasSignal).map rawRisk)) :=
    (overall_eq messages).symm
  have hb := assessRiskLevel_bands (pyMax ((messages.filter hasSignal).map rawRisk))
  refine ⟨detectSignals_totalRiskScore messages ctx h, ?_, ?_, ?_, ?_, hc60, hrl⟩
  · rw [hu, hover, min100_le_iff 70 _ (by norm_num)]; exact hb.1
  · rw [hu, hover, min100_le_iff 50 _ (by norm_num), min100_lt_iff 70 _ (by norm_num)]
    exact hb.2.1
  · rw [hu, hover, min100_le_iff 30 _ (by norm_num), min100_lt_iff 50 _ (by norm_num)]
    exact hb.2.2.1
  · rw [hu, hover, min100_lt_iff 30 _ (by norm_num)]; exact hb.2.2.2

/-- Witness for C2 at a concrete conversation. -/
theorem C2_overall_risk_is_max_witness :
    (detectSignals ["x"] "general").totalRiskScore = some (overallRiskC2 ["x"]) :=
  (C2_overall_risk_is_max ["x"] "general" (List.cons_ne_nil _ _)).1

/-- C3: the breaking point is the one based index of the first message
that triggers a comparison or disengagement signal at all, or a
frustration signal when its own contribution alone (30) already exceeds
30; the first qualifying message wins and is never overwritten (the
result is the first index satisfying the stated predicate). -/
theorem C3_breaking_point_rule (messages : List String) (ctx : String) :
    (detectSignals messages ctx).breakingPoint =
      (findFirstIdx (fun m =>
        (checkComparisons (strLower m)).isSome ||
        (checkDisengagement (strLower m)).isSome ||
        ((checkFrustration (strLower m)).isSome && decide ((30 : ℚ) > 30)))
        messages).map (fun j => j + 1) := by
  rw [detectSignals_breakingPoint]
  have h30 : ¬((30 : ℚ) > 30) := by norm_num
  have hp : (fun m : String =>
      (checkComparisons (strLower m)).isSome ||
      (checkDisengagement (strLower m)).isSome ||
      ((checkFrustration (strLower m)).isSome && decide ((30 : ℚ) > 30)))
      = qualifiesBp := by
    funext m
    simp [qualifiesBp, decide_eq_false h30]
  rw [hp]

/-- C9: the breaking point is set if and only if some message triggers a
comparison or disengagement signal; frustration can never establish it,
because the frustration branch requires the cumulative message risk to
exceed 30 while it is exactly 30 whenever no comparison fired (and a
comparison would already have set the breaking point itself). -/
theorem C9_breaking_point_iff (messages : List String) (ctx : String) :
    (detectSignals messages ctx).breakingPoint.isSome = true ↔
      ∃ m ∈ messages, (checkComparisons (strLower m)).isSome = true ∨
        (checkDisengagement (strLower m)).isSome = true := by
  rw [detectSignals_breakingPoint]
  have hm : ((findFirstIdx qualifiesBp messages).map (fun j => j + 1)).isSome
      = (findFirstIdx qualifiesBp messages).isSome := by
    cases findFirstIdx qualifiesBp messages <;> rfl
  rw [hm, findFirstIdx_isSome]
  simp [qualifiesBp]

/-- C10: the canonical empty detection result omits the total risk score
(modelled as the field being `none`), while every non empty input yields
a present total risk score within `[0, 100]`. -/
theorem C10_result_shape (ctx : String) (messages : List String)
    (h : messages ≠ []) :
    (detectSignals [] ctx).totalRiskScore = none ∧
    ∃ r, (detectSignals messages ctx).totalRiskScore = some r ∧
      0 ≤ r ∧ r ≤ 100 := by
  refine ⟨rfl, overallRiskC2 messages,
    detectSignals_totalRiskScore messages ctx h, foldr_max_nonneg _, ?_⟩
  refine foldr_max_le _ 100 (by norm_num) (fun x hx => ?_)
  obtain ⟨m, _, rfl⟩ := List.mem_map.mp hx
  exact min_le_left _ _

/-- Witness for C10 at a concrete conversation. -/
theorem C10_result_shape_witness :
    (detectSignals [] "general").totalRiskScore = none ∧
    ∃ r, (detectSignals ["x"] "general").totalRiskScore = some r ∧
      0 ≤ r ∧ r ≤ 100 :=
  C10_result_shape "general" ["x"] (List.cons_ne_nil _ _)

/-- Spec side primary action decision, written after the claim wording:
the five rules evaluated in order with first match winning. -/
def primaryActionSpecC4 (sentiment : ℚ) (trend : String)
    (churn resolution : ℚ) : String :=
  if churn > 50 ∧ sentiment < 40 then "LIKELY_CHURN"
  else if resolution > 50 ∧ trend = "IMPROVING" then "LIKELY_RESOLUTION"
  else if sentiment > 50 ∧ trend ≠ "DECLINING" then "LIKELY_STAY"
  else if sentiment < 30 ∧ trend = "DECLINING" then "ESCALATION_NEEDED"
  else "MONITOR_CLOSELY"

/-- C4: for every non empty message list the predicted action is decided
by exactly the five ordered rules of the claim, applied to the derived
current sentiment, trend, churn score and resolution score. -/
theorem C4_action_rules (pol : String → ℚ) (messages : List String)
    (ctx : String) (h : messages ≠ []) :
    (predictAction pol messages ctx).action =
      primaryActionSpecC4 (analyzeEvolution pol messages).currentSentiment
        (analyzeEvolution pol messages).trend
        (scoreChurnRisk (finalTextOf messages))
        (scoreResolutionLikelihood (finalTextOf messages)) := by
  simp only [predictAction, if_neg h]
  rfl

/-- Witness for C4 at a concrete conversation. -/
theorem C4_action_rules_witness :
    (predictAction (fun _ => 0) ["hello"] "general").action =
      primaryActionSpecC4 (analyzeEvolution (fun _ => 0) ["hello"]).currentSentiment
        (analyzeEvolution (fun _ => 0) ["hello"]).trend
        (scoreChurnRisk (finalTextOf ["hello"]))
        (scoreResolutionLikelihood (finalTextOf ["hello"])) :=
  C4_action_rules (fun _ => 0) ["hello"] "general" (List.cons_ne_nil _ _)

lemma clamp01_of_mem {x : ℚ} (h0 : 0 ≤ x) (h1 : x ≤ 100) : clamp01 x = x := by
  rw [clamp01, max_eq_right h0, min_eq_right h1]

lemma calculateSentiment_formula (pol : String → ℚ) (t : String) (ht : t ≠ "") :
    calculateSentiment pol t =
      clamp01 ((50 + (positiveCount (strLower t) : ℚ) * 10
          - (negativeCount (strLower t) : ℚ) * 10) * 0.7
        + ((pol t + 1) * 50) * 0.3) := by
  simp [calculateSentiment, ht]

/-- C8 counterexample: the unconditional monotonicity claim fails, and
each proviso of the amendment is necessary.  First, with the pluggable
polarity estimator that maps the text `x` to -1 and every other text to
1 (both values inside the documented range `[-1, 1]`), extending `x` by
the distinct negative lexicon term `bad` leaves the positive count
unchanged, raises the negative count by one, and yet raises the score
from 35 to 58, because the 30 percent polarity component outweighs the
7 point keyword drop.  Second, even with the polarity estimate held
constant at 1, extending the empty text by `bad` raises the score from
50 to 58, because the empty text branch returns 50 without consulting
the blend, so the amendment must restrict to non empty texts.  Third,
at the level of count comparisons the extended text must also be non
empty: `zz` (no lexicon hits) against the empty text has equal counts
and constant polarity -1, yet scores 35 against the fixed 50. -/
theorem C8_monotonicity_counterexample :
    (((fun t : String => if t = "x" then (-1 : ℚ) else 1) "x" = -1) ∧
    ((fun t : String => if t = "x" then (-1 : ℚ) else 1) "x bad" = 1) ∧
    positiveCount (strLower "x") = positiveCount (strLower "x bad") ∧
    negativeCount (strLower "x") + 1 = negativeCount (strLower "x bad") ∧
    calculateSentiment (fun t => if t = "x" then (-1 : ℚ) else 1) "x" = 35 ∧
    calculateSentiment (fun t => if t = "x" then (-1 : ℚ) else 1) "x bad" = 58 ∧
    calculateSentiment (fun t => if t = "x" then (-1 : ℚ) else 1) "x" <
      calculateSentiment (fun t => if t = "x" then (-1 : ℚ) else 1) "x bad") ∧
    (positiveCount (strLower "") = positiveCount (strLower "bad") ∧
    negativeCount (strLower "") + 1 = negativeCount (strLower "bad") ∧
    calculateSentiment (fun _ => (1 : ℚ)) "" = 50 ∧
    calculateSentiment (fun _ => (1 : ℚ)) "bad" = 58 ∧
    calculateSentiment (fun _ => (1 : ℚ)) "" <
      calculateSentiment (fun _ => (1 : ℚ)) "bad") ∧
    (positiveCount (strLower "zz") = positiveCount (strLower "") ∧
    negativeCount (strLower "zz") = negativeCount (strLower "") ∧
    calculateSentiment (fun _ => (-1 : ℚ)) "zz" = 35 ∧
    calculateSentiment (fun _ => (-1 : ℚ)) "" = 50 ∧
    calculateSentiment (fun _ => (-1 : ℚ)) "zz" <
      calculateSentiment (fun _ => (-1 : ℚ)) "") := by
  have hp1 : positiveCount (strLower "x") = 0 := by decide
  have hp2 : positiveCount (strLower "x bad") = 0 := by decide
  have hn1 : negativeCount (strLower "x") = 0 := by decide
  have hn2 : negativeCount (strLower "x bad") = 1 := by decide
  have hvx : (fun t : String => if t = "x" then (-1 : ℚ) else 1) "x" = -1 := by
    simp
  have hvxb : (fun t : String => if t = "x" then (-1 : ℚ) else 1) "x bad" = 1 := by
    simp
  have hx : calculateSentiment (fun t => if t = "x" then (-1 : ℚ) else 1) "x" = 35 := by
    rw [calculateSentiment_formula _ _ (by decide), hp1, hn1]
    rw [show ((if ("x" : String) = "x" then (-1 : ℚ) else 1)) = -1 from if_pos rfl]
    rw [show ((50 + ((0 : ℕ) : ℚ) * 10 - ((0 : ℕ) : ℚ) * 10) * 0.7
      + ((-1 + 1) * 50) * 0.3) = 35 by norm_num]
    exact clamp01_of_mem (by norm_num) (by norm_num)
  have hxb : calculateSentiment (fun t => if t = "x" then (-1 : ℚ) else 1) "x bad" = 58 := by
    rw [calculateSentiment_formula _ _ (by decide), hp2, hn2]
    rw [show ((if ("x bad" : String) = "x" then (-1 : ℚ) else 1)) = 1 from if_neg (by decide)]
    rw [show ((50 + ((0 : ℕ) : ℚ) * 10 - ((1 : ℕ) : ℚ) * 10) * 0.7
      + ((1 + 1) * 50) * 0.3) = 58 by norm_num]
    exact clamp01_of_mem (by norm_num) (by norm_num)
  have hpe : positiveCount (strLower "") = 0 := by decide
  have hpb : positiveCount (strLower "bad") = 0 := by decide
  have hne : negativeCount (strLower "") = 0 := by decide
  have hnb : negativeCount (strLower "bad") = 1 := by decide
  have hpz : positiveCount (strLower "zz") = 0 := by decide
  have hnz : negativeCount (strLower "zz") = 0 := by decide
  have he1 : calculateSentiment (fun _ => (1 : ℚ)) "" = 50 := by
    simp [calculateSentiment]
  have hb1 : calculateSentiment (fun _ => (1 : ℚ)) "bad" = 58 := by
    rw [calculateSentiment_formula _ _ (by decide), hpb, hnb]
    rw [show ((50 + ((0 : ℕ) : ℚ) * 10 - ((1 : ℕ) : ℚ) * 10) * 0.7
      + (((1 : ℚ) + 1) * 50) * 0.3) = 58 by norm_num]
    exact clamp01_of_mem (by norm_num) (by norm_num)
  have hz1 : calculateSentiment (fun _ => (-1 : ℚ)) "zz" = 35 := by
    rw [calculateSentiment_formula _ _ (by decide), hpz, hnz]
    rw [show ((50 + ((0 : ℕ) : ℚ) * 10 - ((0 : ℕ) : ℚ) * 10) * 0.7
      + (((-1 : ℚ) + 1) * 50) * 0.3) = 35 by norm_num]
    exact clamp01_of_mem (by norm_num) (by norm_num)
  have he2 : calculateSentiment (fun _ => (-1 : ℚ)) "" = 50 := by
    simp [calculateSentiment]
  refine ⟨⟨hvx, hvxb, by rw [hp1, hp2], by rw [hn1, hn2], hx, hxb,
    by rw [hx, hxb]; norm_num⟩, ?_, ?_⟩
  · exact ⟨by rw [hpe, hpb], by rw [hne, hnb], he1, hb1,
      by rw [he1, hb1]; norm_num⟩
  · exact ⟨by rw [hpz, hpe], by rw [hnz, hne], hz1, he2,
      by rw [hz1, he2]; norm_num⟩

/-- C8 amended: for non empty texts, adding occurrences of additional
distinct negative lexicon terms does not increase the score, and adding
distinct positive terms does not decrease it, provided the pluggable
polarity estimate does not move in the opposite direction (unchanged or
moving with the added terms).  Both provisos are forced by the
counterexample: the 30 percent polarity component can outweigh the
keyword change, and the empty text bypasses the blend entirely,
returning exactly 50, so growing the empty text can also raise the
score even with the polarity estimate held fixed. -/
theorem C8_monotonicity_amended (t1 t2 : String) (p1 p2 : ℚ)
    (h1 : t1 ≠ "") (h2 : t2 ≠ "") :
    ((positiveCount (strLower t1) = positiveCount (strLower t2) ∧
      negativeCount (strLower t1) ≤ negativeCount (strLower t2) ∧
      p2 ≤ p1) →
      calculateSentiment (fun _ => p2) t2 ≤ calculateSentiment (fun _ => p1) t1) ∧
    ((negativeCount (strLower t1) = negativeCount (strLower t2) ∧
      positiveCount (strLower t1) ≤ positiveCount (strLower t2) ∧
      p1 ≤ p2) →
      calculateSentiment (fun _ => p1) t1 ≤ calculateSentiment (fun _ => p2) t2) := by
  constructor
  · rintro ⟨hpos, hneg, hp⟩
    rw [calculateSentiment_formula _ _ h1, calculateSentiment_formula _ _ h2]
    apply clamp01_mono
    have hposq : (positiveCount (strLower t1) : ℚ) = (positiveCount (strLower t2) : ℚ) := by
      rw [hpos]
    have hnegq : (negativeCount (strLower t1) : ℚ) ≤ (negativeCount (strLower t2) : ℚ) := by
      exact_mod_cast hneg
    nlinarith [hposq, hnegq, hp]
  · rintro ⟨hneg, hpos, hp⟩
    rw [calculateSentiment_formula _ _ h1, calculateSentiment_formula _ _ h2]
    apply clamp01_mono
    have hnegq : (negativeCount (strLower t1) : ℚ) = (negativeCount (strLower t2) : ℚ) := by
      rw [hneg]
    have hposq : (positiveCount (strLower t1) : ℚ) ≤ (positiveCount (strLower t2) : ℚ) := by
      exact_mod_cast hpos
    nlinarith [hnegq, hposq, hp]

/-- Witness for the amended C8 at concrete texts and polarities. -/
theorem C8_monotonicity_amended_witness :
    calculateSentiment (fun _ => (0 : ℚ)) "a bad" ≤
      calculateSentiment (fun _ => (0 : ℚ)) "a" :=
  (C8_monotonicity_amended "a" "a bad" 0 0 (by decide) (by decide)).1
    ⟨by decide, by decide, le_refl 0⟩

lemma buildTimeline_append (pol : String → ℚ) : ∀ (L : List String) (i : ℕ) (b : String),
    buildTimeline pol i (L ++ [b]) =
      buildTimeline pol i L ++ [mkPoint pol (i + L.length) b]
  | [], i, b => by simp [buildTimeline]
  | t :: rest, i, b => by
    have e : i + 1 + rest.length = i + (rest.length + 1) := by omega
    show mkPoint pol i t :: buildTimeline pol (i + 1) (rest ++ [b]) =
      (mkPoint pol i t :: buildTimeline pol (i + 1) rest) ++
        [mkPoint pol (i + (rest.length + 1)) b]
    rw [buildTimeline_append pol rest (i + 1) b, e]
    simp

/-- C6: for every non empty message list the current sentiment equals the
sentiment score of the last timeline entry, and the trend field is the
pure trend function of the per message score sequence (values are never
mutated after construction in this embedding, every record being a
value). -/
theorem C6_trajectory_invariants (pol : String → ℚ) (messages : List String)
    (h : messages ≠ []) :
    (∃ pt, (analyzeEvolution pol messages).timeline.getLast? = some pt ∧
      (analyzeEvolution pol messages).currentSentiment = pt.sentimentScore) ∧
    (analyzeEvolution pol messages).trend =
      calculateTrend (messages.map (calculateSentiment pol)) := by
  obtain ⟨L, b, rfl⟩ := (List.eq_nil_or_concat' messages).resolve_left h
  constructor
  · refine ⟨mkPoint pol (0 + L.length) b, ?_, ?_⟩
    · simp only [analyzeEvolution, if_neg h]
      rw [buildTimeline_append]
      exact List.getLast?_concat _
    · simp only [analyzeEvolution, if_neg h]
      simp only [List.map_append, List.map_cons, List.map_nil, List.getLast?_concat]
      rfl
  · simp only [analyzeEvolution, if_neg h]

/-- Witness for C6 at a concrete conversation. -/
theorem C6_trajectory_invariants_witness :
    (analyzeEvolution (fun _ => 0) ["bad service"]).trend =
      calculateTrend (["bad service"].map (calculateSentiment (fun _ => 0))) :=
  (C6_trajectory_invariants (fun _ => 0) ["bad service"]
    (List.cons_ne_nil _ _)).2

lemma mem_findTurningPoints (s : List ℚ) (tl : List ScoredPoint) (tp : TurningPoint) :
    tp ∈ findTurningPoints s tl ↔
      ∃ i, i < s.length ∧ i ≠ 0 ∧ 20 < |s.getD i 0 - s.getD (i - 1) 0| ∧
        tp = { index := i,
               timestamp := (tl.getD i default).timestamp,
               fromState := sentimentState (s.getD (i - 1) 0),
               toState := sentimentState (s.getD i 0),
               changeMagnitude := round2 |s.getD i 0 - s.getD (i - 1) 0|,
               severity := severityOf |s.getD i 0 - s.getD (i - 1) 0| } := by
  simp only [findTurningPoints, List.mem_filterMap, List.mem_range]
  constructor
  · rintro ⟨i, hi, hf⟩
    by_cases h0 : i = 0
    · rw [if_pos h0] at hf; cases hf
    · rw [if_neg h0] at hf
      by_cases h20 : |s.getD i 0 - s.getD (i - 1) 0| > 20
      · rw [if_pos h20] at hf
        exact ⟨i, hi, h0, h20, (Option.some.inj hf).symm⟩
      · rw [if_neg h20] at hf; cases hf
  · rintro ⟨i, hi, h0, h20, rfl⟩
    refine ⟨i, hi, ?_⟩
    rw [if_neg h0, if_pos h20]

/-- C5: a turning point between consecutive positions `i-1` and `i`
exists if and only if the absolute score delta strictly exceeds 20, each
emitted turning point records both state bands, the rounded magnitude
and the severity tier (above 40 critical, above 30 high, else medium),
a delta of exactly 20 does not register and a delta of 20.01 does. -/
theorem C5_turning_points :
    (∀ (s : List ℚ) (tl : List ScoredPoint) (i : ℕ), 1 ≤ i → i < s.length →
      ((∃ tp ∈ findTurningPoints s tl, tp.index = i) ↔
        20 < |s.getD i 0 - s.getD (i - 1) 0|)) ∧
    (∀ (s : List ℚ) (tl : List ScoredPoint) (tp : TurningPoint),
      tp ∈ findTurningPoints s tl →
        1 ≤ tp.index ∧ tp.index < s.length ∧
        tp.fromState = sentimentState (s.getD (tp.index - 1) 0) ∧
        tp.toState = sentimentState (s.getD tp.index 0) ∧
        tp.changeMagnitude = round2 |s.getD tp.index 0 - s.getD (tp.index - 1) 0| ∧
        tp.severity =
          (if 40 < |s.getD tp.index 0 - s.getD (tp.index - 1) 0| then "CRITICAL"
           else if 30 < |s.getD tp.index 0 - s.getD (tp.index - 1) 0| then "HIGH"
           else "MEDIUM")) ∧
    (∀ tl, findTurningPoints [50, 70] tl = []) ∧
    (∀ tl, (findTurningPoints [50, 70.01] tl).length = 1) := by
  refine ⟨?_, ?_, ?_, ?_⟩
  · intro s tl i h1 hlen
    constructor
    · rintro ⟨tp, htp, hidx⟩
      obtain ⟨j, hj, hj0, hj20, rfl⟩ := (mem_findTurningPoints s tl tp).mp htp
      have hji : j = i := hidx
      subst hji
      exact hj20
    · intro h20
      exact ⟨_, (mem_findTurningPoints s tl _).mpr
        ⟨i, hlen, by omega, h20, rfl⟩, rfl⟩
  · intro s tl tp htp
    obtain ⟨i, hi, h0, h20, rfl⟩ := (mem_findTurningPoints s tl tp).mp htp
    exact ⟨show 1 ≤ i by omega, hi, rfl, rfl, rfl, rfl⟩
  · intro tl
    have e20 : |(70 : ℚ) - 50| = 20 := by
      rw [show (70 : ℚ) - 50 = 20 by norm_num]
      exact abs_of_nonneg (by norm_num)
    have hfalse : ¬((20 : ℚ) < 20) := by norm_num
    simp [findTurningPoints, show List.range 2 = [0, 1] from rfl, e20, hfalse]
  · intro tl
    have e : |(70.01 : ℚ) - 50| = 20.01 := by
      rw [show (70.01 : ℚ) - 50 = 20.01 by norm_num]
      exact abs_of_nonneg (by norm_num)
    have htrue : (20 : ℚ) < 20.01 := by norm_num
    simp [findTurningPoints, show List.range 2 = [0, 1] from rfl, e, htrue]

/-- Witness for C5 at a concrete score pair. -/
theorem C5_turning_points_witness :
    (∃ tp ∈ findTurningPoints [0, 30] ([] : List ScoredPoint), tp.index = 1) ↔
      20 < |([0, 30] : List ℚ).getD 1 0 - ([0, 30] : List ℚ).getD 0 0| :=
  C5_turning_points.1 [0, 30] [] 1 (by norm_num) (by norm_num)
